import Mathlib

/-!
Verification of the henzai daemon's generation-lifecycle and
reconfiguration coordinator (src/henzai-daemon/henzai/dbus_service.py and
src/henzai-daemon/henzai/llm.py), via a shallow embedding: the daemon's
mutable attributes become an explicit state record, D-Bus signal emission
and collaborator calls become an event log, and each Python method becomes
a Lean function from state to state plus emitted events.  Thread
interleavings are modelled by running lists of atomic actions
(registration, worker start, per-delta delivery, worker completion, stop,
reconfiguration calls) against the state.
-/

namespace Henzai

/-- A requested RAG reconfiguration, as stored in
`self._pending_rag_change = {'enabled': ..., 'mode': ...}`. -/
structure RagChange where
  enabled : Bool
  mode : String
deriving DecidableEq, Repr

/-- The JSON body returned by `SetRagEnabled` / `_apply_rag_change`
(`json.dumps({"success": ..., "error"/"message": ...})`), abstracted to its
success flag and its human-readable text. -/
structure RagResult where
  success : Bool
  message : String
deriving DecidableEq, Repr

/-- The `choices[0].delta` object of one parsed SSE payload.  The outer
`Option` is dictionary membership (`'content' in delta`); the inner
`Option` distinguishes a JSON string from JSON `null`
(`delta['content'] is None`). -/
structure DeltaObj where
  reasoning_content : Option (Option String)
  content : Option (Option String)
deriving DecidableEq, Repr

/-- One line yielded by `self._current_request.iter_lines()` in
`LLMClient._call_ramalama_api_streaming`, classified the way the Python
loop classifies it: empty line; a line without the `data: ` marker; the
`data: [DONE]` terminal marker; a `data: ` line whose payload fails
`json.loads` (`JSONDecodeError`); a valid JSON payload without a usable
`choices[0].delta`; or a valid payload with a delta object. -/
inductive SSELine where
  | empty : SSELine
  | noData (s : String) : SSELine
  | dataDone : SSELine
  | dataMalformed (s : String) : SSELine
  | dataOther : SSELine
  | dataDelta (d : DeltaObj) : SSELine
deriving DecidableEq, Repr

/-- A callback invocation made by the decoder loop: `chunk_callback`
(content) or `reasoning_callback` (reasoning). -/
inductive StreamEvent where
  | reasoningChunk (s : String) : StreamEvent
  | contentChunk (s : String) : StreamEvent
deriving DecidableEq, Repr

/-- How the line iterator of the streaming HTTP response ends after its
yielded lines: normal exhaustion, or the connection being closed midway
(`requests.exceptions.ChunkedEncodingError`, raised e.g. when
`stop_current_generation` closes the socket). -/
inductive StreamEnding where
  | exhausted : StreamEnding
  | chunkedEncodingError : StreamEnding
deriving DecidableEq, Repr

/-- Outcome of `requests.post(..., stream=True)` as observed by
`_call_ramalama_api_streaming`: a non-200 status, a connection error, a
timeout, or a live line stream with a given ending. -/
inductive HttpResponse where
  | badStatus (code : Nat) : HttpResponse
  | connectionError : HttpResponse
  | timeout : HttpResponse
  | okStream (lines : List SSELine) (ending : StreamEnding) : HttpResponse
deriving DecidableEq, Repr

/-- Observable events of the daemon: the three D-Bus signals, the
conversation-store append (`self.memory.add_conversation`), and an
invocation of `_restart_ramalama_service` recording the `enable_rag`
argument together with `self._rag_mode` at call time (the mode the restart
bakes into the service file). -/
inductive Ev where
  | responseChunk (gid : Nat) (chunk : String) : Ev
  | thinkingChunk (gid : Nat) (chunk : String) : Ev
  | streamingComplete (gid : Nat) : Ev
  | memoryAppend (user assistant : String) : Ev
  | restartInvoked (enable_rag : Bool) (mode : String) : Ev
deriving DecidableEq, Repr

/-- The daemon's shared mutable attributes (`henzaiService.__init__`),
plus `has_rag_db` modelling the filesystem query
`(rag_db_path / 'collection').exists()` and `llm_rag_enabled` modelling
the flag set by `self.llm.set_rag_enabled`.  Generation ids are the `Nat`
inside the source's `f"gen_{int(time.time() * 1000000)}"` string. -/
structure DaemonState where
  status : String
  stop_generation : Bool
  current_generation_id : Option Nat
  pending_service_restart : Bool
  rag_mode : String
  service_restarting : Bool
  pending_rag_change : Option RagChange
  rag_mode_change_timer : Option RagChange
  llm_rag_enabled : Bool
  has_rag_db : Bool
deriving DecidableEq, Repr

/-- The state right after `__init__` finishes (`status = "ready"`), with
the RAG-database existence supplied as an environment parameter. -/
def init (has_db : Bool) : DaemonState :=
  { status := "ready"
    stop_generation := false
    current_generation_id := none
    pending_service_restart := false
    rag_mode := "augment"
    service_restarting := false
    pending_rag_change := none
    rag_mode_change_timer := none
    llm_rag_enabled := false
    has_rag_db := has_db }

/-- Mode validation in `SetRagEnabled`: an invalid mode falls back to
`'augment'`. -/
def validateMode (mode : String) : String :=
  if mode = "augment" ∨ mode = "strict" ∨ mode = "hybrid" then mode else "augment"

/-- The SSE decoding loop of `_call_ramalama_api_streaming` (llm.py lines
573-626) as a pure function: given whether the two callbacks were
provided, it folds the line list into the ordered callback invocations and
the accumulated `full_response`.  Blank lines, non-`data:` lines,
malformed JSON and payloads without a delta are skipped; `[DONE]` breaks
the loop; a present non-null reasoning field fires `reasoning_callback`;
a present non-null content field is appended to `full_response` and fires
`chunk_callback`. -/
def processLines (hasRC hasCC : Bool) : List SSELine → List StreamEvent × String
  | [] => ([], "")
  | line :: rest =>
    match line with
    | .empty => processLines hasRC hasCC rest
    | .noData _ => processLines hasRC hasCC rest
    | .dataDone => ([], "")
    | .dataMalformed _ => processLines hasRC hasCC rest
    | .dataOther => processLines hasRC hasCC rest
    | .dataDelta d =>
      let revs : List StreamEvent :=
        match d.reasoning_content with
        | some (some rc) => if hasRC then [.reasoningChunk rc] else []
        | _ => []
      match d.content with
      | some (some c) =>
        let r := processLines hasRC hasCC rest
        (revs ++ (if hasCC then [.contentChunk c] else []) ++ r.1, c ++ r.2)
      | _ =>
        let r := processLines hasRC hasCC rest
        (revs ++ r.1, r.2)

/-- The prefix of the line stream actually consumed: everything before the
first `[DONE]` marker. -/
def takeUntilDone : List SSELine → List SSELine
  | [] => []
  | .dataDone :: _ => []
  | l :: rest => l :: takeUntilDone rest

/-- The content fragment a line contributes to `full_response`, if any:
only a `dataDelta` payload with a present, non-null content field. -/
def contentFragment : SSELine → Option String
  | .dataDelta d =>
    match d.content with
    | some (some c) => some c
    | _ => none
  | _ => none

/-- Error text raised for a non-200 status in
`_call_ramalama_api_streaming` (response-body details abstracted away for
codes other than 503). -/
def apiErrorMessage (code : Nat) : String :=
  if code = 503 then
    "API error 503 - Model is still loading, please wait a moment and try again"
  else "API error " ++ toString code

/-- `LLMClient._call_ramalama_api_streaming`: `.error` is a raised
exception (non-200 status, `ConnectionError`, `Timeout`); a live stream is
decoded by the loop.  The `ChunkedEncodingError` handler returns the
`full_response` accumulated so far instead of raising, so a stream cut off
mid-way still yields `.ok` with the events delivered and the partial
content — the same value as a naturally exhausted stream of the same
lines. -/
def call_ramalama_api_streaming (hasRC hasCC : Bool) (resp : HttpResponse) :
    Except String (List StreamEvent × String) :=
  match resp with
  | .badStatus code => .error (apiErrorMessage code)
  | .connectionError =>
    .error "Cannot connect to Ramalama. Is it running? Check: systemctl --user status ramalama"
  | .timeout => .error "Sorry, the request timed out. Please try again."
  | .okStream lines _ => .ok (processLines hasRC hasCC lines)

/-- `LLMClient.generate_response_streaming`: the `try/except` wrapper that
catches every exception from the API call and returns
`f"I encountered an error: {str(e)}"` as the response string instead of
re-raising.  Result: the callback invocations made and the returned
string. -/
def generate_response_streaming (hasRC hasCC : Bool) (resp : HttpResponse) :
    List StreamEvent × String :=
  match call_ramalama_api_streaming hasRC hasCC resp with
  | .ok r => r
  | .error e => ([], "I encountered an error: " ++ e)

/-- `henzaiService._restart_ramalama_service(enable_rag)`: logs an
invocation event carrying `enable_rag` and the current `self._rag_mode`,
fails when RAG is requested without a database, otherwise succeeds or
fails according to the environment (`envSuccess` abstracts the service
file existing and the `systemctl` subprocesses succeeding; every exception
is caught inside and converted to `False`).  On success the deferred
restart flag is cleared (source line 1524). -/
def restart_ramalama_service (envSuccess : Bool) (enable_rag : Bool) (s : DaemonState) :
    DaemonState × List Ev × Bool :=
  let ev : Ev := .restartInvoked enable_rag s.rag_mode
  let success := (!enable_rag || s.has_rag_db) && envSuccess
  if success then ({ s with pending_service_restart := false }, [ev], true)
  else (s, [ev], false)

/-- `henzaiService._apply_rag_change`: under `_service_restart_lock`,
abort with a busy result if `_service_restarting` is already set,
otherwise take the gate; in the `try` block store `self._rag_mode = mode`
(before the restart), run the restart, and update the LLM client's RAG
flag only on success; the `finally` block releases the gate on every exit
path.  The RAG-image existence check between the mode store and the
restart only logs a warning and continues, so it has no effect here. -/
def apply_rag_change (envSuccess : Bool) (enabled : Bool) (mode : String) (s : DaemonState) :
    DaemonState × List Ev × RagResult :=
  if s.service_restarting then
    (s, [], ⟨false, "Service restart already in progress"⟩)
  else
    let s1 := { s with service_restarting := true, rag_mode := mode }
    let r := restart_ramalama_service envSuccess enabled s1
    if r.2.2 then
      ({ r.1 with llm_rag_enabled := enabled, service_restarting := false }, r.2.1,
        ⟨true, (if enabled then "RAG enabled" else "RAG disabled") ++
          " successfully (mode: " ++ mode ++ ")"⟩)
    else
      ({ r.1 with service_restarting := false }, r.2.1,
        ⟨false, "Failed to restart ramalama service"⟩)

/-- `henzaiService.SetRagEnabled` (source lines 1199-1268).  Priority 1:
busy if a restart is in progress.  Then mode validation, then the
RAG-database existence check, then the active-generation deferral (cancel
any debounce timer, store the pending change last-write-wins), then the
debounce re-check of `_service_restarting` (source line 1253; in this
sequential embedding it reads the same field the priority-1 check read),
else apply immediately. -/
def SetRagEnabled (envSuccess : Bool) (enabled : Bool) (mode : String) (s : DaemonState) :
    DaemonState × List Ev × RagResult :=
  if s.service_restarting then
    (s, [], ⟨false, "Service restart already in progress, please wait"⟩)
  else
    let mode1 := validateMode mode
    if enabled && !s.has_rag_db then
      (s, [], ⟨false, "No RAG database found. Please index documents first."⟩)
    else if s.current_generation_id.isSome then
      ({ s with rag_mode_change_timer := none,
                pending_rag_change := some ⟨enabled, mode1⟩ }, [],
        ⟨true, "RAG mode change scheduled (will apply after current response finishes)"⟩)
    else
      let s1 := { s with rag_mode_change_timer := none }
      if s1.service_restarting then
        ({ s1 with rag_mode_change_timer := some ⟨enabled, mode1⟩ }, [],
          ⟨true, "RAG mode change scheduled"⟩)
      else
        apply_rag_change envSuccess enabled mode1 s1

/-- `henzaiService._check_pending_service_restart` (source lines
1537-1554), the deferred-work hook run after `StreamingComplete`: when no
generation is active, a pending RAG change is removed from the slot first
and then applied; otherwise a pending plain service restart (from
indexing) is executed. -/
def check_pending_service_restart (envSuccess : Bool) (s : DaemonState) :
    DaemonState × List Ev :=
  if s.current_generation_id = none then
    match s.pending_rag_change with
    | some change =>
      let s1 := { s with pending_rag_change := none }
      let r := apply_rag_change envSuccess change.enabled change.mode s1
      (r.1, r.2.1)
    | none =>
      if s.pending_service_restart then
        let r := restart_ramalama_service envSuccess false s
        ({ r.1 with pending_service_restart := false }, r.2.1)
      else (s, [])
  else (s, [])

/-- `chunk_handler` inside `SendMessageStreaming`: a content chunk is
emitted as a `ResponseChunk` signal unless the stop flag is set or the
registry's current id no longer equals this worker's id. -/
def chunk_handler (gid : Nat) (chunk : String) (s : DaemonState) : List Ev :=
  if s.stop_generation = true ∨ s.current_generation_id ≠ some gid then []
  else [.responseChunk gid chunk]

/-- `reasoning_handler` inside `SendMessageStreaming`: same guard as
`chunk_handler`, emitting a `ThinkingChunk` signal. -/
def reasoning_handler (gid : Nat) (chunk : String) (s : DaemonState) : List Ev :=
  if s.stop_generation = true ∨ s.current_generation_id ≠ some gid then []
  else [.thinkingChunk gid chunk]

/-- The tail of `background_streaming` after
`generate_response_streaming` returns (source lines 828-866): if stopped
or superseded, clear the current generation id, set status ready, emit
`StreamingComplete` and run the deferred-work hook; otherwise save the
conversation, clear the id, set status ready, emit `StreamingComplete`
and run the hook. -/
def worker_finish (envSuccess : Bool) (gid : Nat) (message full_response : String)
    (s : DaemonState) : DaemonState × List Ev :=
  if s.stop_generation = true ∨ s.current_generation_id ≠ some gid then
    let s1 := { s with current_generation_id := none, status := "ready" }
    let r := check_pending_service_restart envSuccess s1
    (r.1, Ev.streamingComplete gid :: r.2)
  else
    let s1 := { s with current_generation_id := none, status := "ready" }
    let r := check_pending_service_restart envSuccess s1
    (r.1, Ev.memoryAppend message full_response :: Ev.streamingComplete gid :: r.2)

/-- Atomic actions of the daemon, used to express interleavings of
D-Bus calls and worker threads.  `startGen` is the synchronous front  of
`SendMessageStreaming` (register the new id, source lines 772-773);
`workerBegin` is the worker prologue (status, stop-flag reset, lines
780-781); the deliver actions are single handler invocations;
`workerFinish` is the worker epilogue; `stopGen` is `StopGeneration`;
`setRag` is a `SetRagEnabled` call with its environment outcome. -/
inductive Act where
  | startGen (gid : Nat) : Act
  | workerBegin (gid : Nat) : Act
  | deliverContent (gid : Nat) (chunk : String) : Act
  | deliverReasoning (gid : Nat) (chunk : String) : Act
  | workerFinish (envSuccess : Bool) (gid : Nat) (message full : String) : Act
  | stopGen : Act
  | setRag (envSuccess : Bool) (enabled : Bool) (mode : String) : Act
deriving DecidableEq, Repr

/-- One atomic action applied to the daemon state, returning the new
state and the events emitted. -/
def step (s : DaemonState) : Act → DaemonState × List Ev
  | .startGen gid => ({ s with current_generation_id := some gid }, [])
  | .workerBegin _ => ({ s with status := "thinking", stop_generation := false }, [])
  | .deliverContent gid c => (s, chunk_handler gid c s)
  | .deliverReasoning gid c => (s, reasoning_handler gid c s)
  | .workerFinish env gid m f => worker_finish env gid m f s
  | .stopGen => ({ s with stop_generation := true, status := "ready" }, [])
  | .setRag env e m =>
    let r := SetRagEnabled env e m s
    (r.1, r.2.1)

/-- Run a list of atomic actions, concatenating the emitted events. -/
def run (s : DaemonState) : List Act → DaemonState × List Ev
  | [] => (s, [])
  | a :: rest =>
    let r := step s a
    let r2 := run r.1 rest
    (r2.1, r.2 ++ r2.2)

/-- The delivery actions corresponding to the callback invocations the
decoder makes for one generation. -/
def streamActs (gid : Nat) (evs : List StreamEvent) : List Act :=
  evs.map fun e =>
    match e with
    | .contentChunk c => Act.deliverContent gid c
    | .reasoningChunk c => Act.deliverReasoning gid c

/-- The D-Bus signal a stream callback turns into when the guards pass. -/
def streamEvToSignal (gid : Nat) : StreamEvent → Ev
  | .contentChunk c => .responseChunk gid c
  | .reasoningChunk c => .thinkingChunk gid c

/-- The full action sequence of one uninterfered `SendMessageStreaming`
call: register, worker prologue, the deliveries produced by the LLM call,
then the worker epilogue with the returned response string. -/
def generationRun (envSuccess : Bool) (gid : Nat) (msg : String) (resp : HttpResponse) :
    List Act :=
  let r := generate_response_streaming true true resp
  Act.startGen gid :: Act.workerBegin gid ::
    (streamActs gid r.1 ++ [Act.workerFinish envSuccess gid msg r.2])

/-- Whether an event is a backend-restart invocation. -/
def isRestartEv : Ev → Bool
  | .restartInvoked _ _ => true
  | _ => false

/-- Whether an event is a `ResponseChunk` signal. -/
def isResponseChunkEv : Ev → Bool
  | .responseChunk _ _ => true
  | _ => false

/-- The restart invocations within an event log, in order. -/
def restartEvents (l : List Ev) : List Ev :=
  l.filter isRestartEv

/-- The `(enabled, mode)` pair of the last request in a nonempty request
sequence given as head plus tail (each tail entry also carries its
environment outcome in the first component). -/
def lastTriple (cur : Bool × String) : List (Bool × Bool × String) → Bool × String
  | [] => cur
  | (_, e, m) :: rest => lastTriple (e, m) rest

/-- Concatenation of a list of strings in order. -/
def concatAll : List String → String
  | [] => ""
  | c :: rest => c ++ concatAll rest

/-- Program counter of one `_apply_rag_change` invocation, abstracted to
its three phases: before the locked check-and-set, inside the critical
section (restart running), and finished — either having bailed out busy
or having released the gate in the `finally` block. -/
inductive GatePC where
  | idle : GatePC
  | crit : GatePC
  | doneBusy : GatePC
  | doneOk : GatePC
deriving DecidableEq, Repr

/-- Configuration of two concurrent `_apply_rag_change` invocations
sharing the `_service_restarting` gate. -/
structure GateConf where
  gate : Bool
  pc1 : GatePC
  pc2 : GatePC
deriving DecidableEq, Repr

/-- Interleaved small-step semantics of two `_apply_rag_change` calls.
The locked check-and-set (source lines 1288-1295) is one atomic step:
seeing the gate held means returning busy, seeing it free means taking it
and entering the restart; the `finally` release (lines 1323-1325) is the
exit step. -/
inductive gateStep : GateConf → GateConf → Prop where
  | acquire1 (c : GateConf) (h : c.pc1 = .idle) (hg : c.gate = false) :
    gateStep c { c with gate := true, pc1 := .crit }
  | busy1 (c : GateConf) (h : c.pc1 = .idle) (hg : c.gate = true) :
    gateStep c { c with pc1 := .doneBusy }
  | release1 (c : GateConf) (h : c.pc1 = .crit) :
    gateStep c { c with gate := false, pc1 := .doneOk }
  | acquire2 (c : GateConf) (h : c.pc2 = .idle) (hg : c.gate = false) :
    gateStep c { c with gate := true, pc2 := .crit }
  | busy2 (c : GateConf) (h : c.pc2 = .idle) (hg : c.gate = true) :
    gateStep c { c with pc2 := .doneBusy }
  | release2 (c : GateConf) (h : c.pc2 = .crit) :
    gateStep c { c with gate := false, pc2 := .doneOk }

/-- Mutual-exclusion invariant for the restart gate: anyone in the
critical section holds the gate, and the two invocations are never in the
critical section together. -/
def GateInv (c : GateConf) : Prop :=
  (c.pc1 = GatePC.crit → c.gate = true) ∧
  (c.pc2 = GatePC.crit → c.gate = true) ∧
  ¬(c.pc1 = GatePC.crit ∧ c.pc2 = GatePC.crit)

/-- Initial configuration: gate free, both invocations before their
check-and-set. -/
def gateInit : GateConf :=
  { gate := false, pc1 := .idle, pc2 := .idle }

/-- One interleaved step of the two apply invocations preserves the
gate's mutual-exclusion invariant. -/
lemma gateInv_step {c c' : GateConf} (hstep : gateStep c c') (hinv : GateInv c) :
    GateInv c' := by
  obtain ⟨h1, h2, h12⟩ := hinv
  cases hstep with
  | acquire1 h hg =>
    refine ⟨fun _ => rfl, fun _ => rfl, fun hb => ?_⟩
    exact absurd (h2 hb.2) (by simp [hg])
  | busy1 h hg =>
    refine ⟨by simp, fun hp2 => h2 hp2, fun hb => by have := hb.1; simp at this⟩
  | release1 h =>
    refine ⟨by simp, fun hp2 => absurd ⟨h, hp2⟩ h12, fun hb => by have := hb.1; simp at this⟩
  | acquire2 h hg =>
    refine ⟨fun _ => rfl, fun _ => rfl, fun hb => ?_⟩
    exact absurd (h1 hb.1) (by simp [hg])
  | busy2 h hg =>
    refine ⟨fun hp1 => h1 hp1, by simp, fun hb => by have := hb.2; simp at this⟩
  | release2 h =>
    refine ⟨fun hp1 => absurd ⟨hp1, h⟩ h12, by simp, fun hb => by have := hb.2; simp at this⟩

/-- Every configuration reachable from the initial one satisfies the
mutual-exclusion invariant. -/
lemma gateInv_reachable {c : GateConf}
    (hreach : Relation.ReflTransGen gateStep gateInit c) : GateInv c := by
  induction hreach with
  | refl => exact ⟨by simp [gateInit], by simp [gateInit], by simp [gateInit]⟩
  | tail _ hstep ih => exact gateInv_step hstep ih

/-- The accumulated `full_response` of the decoder loop is the in-order
concatenation of the non-null content fragments before the first `[DONE]`
marker. -/
lemma processLines_full (hrc hcc : Bool) :
    ∀ ls : List SSELine,
      (processLines hrc hcc ls).2 =
        concatAll ((takeUntilDone ls).filterMap contentFragment) := by
  intro ls
  induction ls with
  | nil => simp [processLines, takeUntilDone, concatAll]
  | cons line rest ih =>
    cases line with
    | empty => simpa [processLines, takeUntilDone, contentFragment] using ih
    | noData s => simpa [processLines, takeUntilDone, contentFragment] using ih
    | dataDone => simp [processLines, takeUntilDone, concatAll]
    | dataMalformed s => simpa [processLines, takeUntilDone, contentFragment] using ih
    | dataOther => simpa [processLines, takeUntilDone, contentFragment] using ih
    | dataDelta d =>
      obtain ⟨rc, ct⟩ := d
      match ct with
      | none => simpa [processLines, takeUntilDone, contentFragment] using ih
      | some none => simpa [processLines, takeUntilDone, contentFragment] using ih
      | some (some c) =>
        simp [processLines, takeUntilDone, contentFragment, concatAll, ih]

/-- A malformed JSON payload line anywhere in the stream is skipped: the
decoder behaves as if the line were absent. -/
lemma processLines_skip_malformed (hrc hcc : Bool) (str : String) :
    ∀ xs ys : List SSELine,
      processLines hrc hcc (xs ++ SSELine.dataMalformed str :: ys) =
        processLines hrc hcc (xs ++ ys) := by
  intro xs
  induction xs with
  | nil => intro ys; simp [processLines]
  | cons x rest ih =>
    intro ys
    cases x with
    | empty => simpa [processLines] using ih ys
    | noData s => simpa [processLines] using ih ys
    | dataDone => simp [processLines]
    | dataMalformed s => simpa [processLines] using ih ys
    | dataOther => simpa [processLines] using ih ys
    | dataDelta d =>
      obtain ⟨rc, ct⟩ := d
      match ct with
      | none => simp [processLines, ih ys]
      | some none => simp [processLines, ih ys]
      | some (some c) => simp [processLines, ih ys]

/-- Running a concatenation of action lists splits into the two runs. -/
lemma run_append (l1 : List Act) :
    ∀ (l2 : List Act) (s : DaemonState),
      run s (l1 ++ l2) =
        ((run (run s l1).1 l2).1, (run s l1).2 ++ (run (run s l1).1 l2).2) := by
  induction l1 with
  | nil => intro l2 s; simp [run]
  | cons a rest ih =>
    intro l2 s
    simp [run, ih]

/-- While the stop flag is clear and the worker's id is still current,
each delivery action emits its signal and leaves the state unchanged. -/
lemma run_streamActs (gid : Nat) (evs : List StreamEvent) :
    ∀ (rest : List Act) (s : DaemonState),
      s.stop_generation = false → s.current_generation_id = some gid →
      run s (streamActs gid evs ++ rest) =
        ((run s rest).1, evs.map (streamEvToSignal gid) ++ (run s rest).2) := by
  induction evs with
  | nil => intro rest s _ _; simp [streamActs]
  | cons e tl ih =>
    intro rest s hstop hcur
    cases e with
    | contentChunk c =>
      simp only [streamActs, List.map_cons, List.cons_append, run, step]
      rw [show streamActs gid tl = List.map _ tl from rfl] at ih
      simp [chunk_handler, hstop, hcur, ih rest s hstop hcur, streamActs,
        streamEvToSignal]
    | reasoningChunk c =>
      simp only [streamActs, List.map_cons, List.cons_append, run, step]
      rw [show streamActs gid tl = List.map _ tl from rfl] at ih
      simp [reasoning_handler, hstop, hcur, ih rest s hstop hcur, streamActs,
        streamEvToSignal]

/-- While a generation is active (and the gate is free and the RAG
database exists), every `SetRagEnabled` call is deferred: it cancels the
debounce timer, overwrites the pending slot last-write-wins with the
validated request, emits nothing, and the stored pending change after a
nonempty burst of calls is the last request. -/
lemma run_deferral (tail : List (Bool × Bool × String)) :
    ∀ (s : DaemonState) (g : Nat), s.service_restarting = false →
      s.has_rag_db = true → s.current_generation_id = some g →
      ∀ (env0 e0 : Bool) (m0 : String),
      run s (Act.setRag env0 e0 m0 ::
          tail.map (fun q => Act.setRag q.1 q.2.1 q.2.2)) =
        ({ s with rag_mode_change_timer := none,
                  pending_rag_change := some ⟨(lastTriple (e0, m0) tail).1,
                    validateMode (lastTriple (e0, m0) tail).2⟩ }, []) := by
  induction tail with
  | nil =>
    intro s g hsr hdb hcur env0 e0 m0
    simp [run, step, SetRagEnabled, hsr, hdb, hcur, lastTriple]
  | cons q rest ih =>
    intro s g hsr hdb hcur env0 e0 m0
    obtain ⟨env1, e1, m1⟩ := q
    have hstep :
        step s (Act.setRag env0 e0 m0) =
          ({ s with rag_mode_change_timer := none,
                    pending_rag_change := some ⟨e0, validateMode m0⟩ }, []) := by
      simp [step, SetRagEnabled, hsr, hdb, hcur]
    have ih' := ih ({ s with rag_mode_change_timer := none, pending_rag_change := some ⟨e0, validateMode m0⟩ }) g hsr hdb hcur env1 e1 m1
    simp only [run, List.map_cons, hstep]
    simp only [run] at ih'
    simp only [List.nil_append]
    rw [ih']
    simp [lastTriple]

/-- The deferred-work hook never changes the current generation id: it
only touches the pending slot, the gate, the cached mode/enabled state and
the deferred-restart flag. -/
lemma check_pending_preserves_current (env : Bool) (s : DaemonState) :
    (check_pending_service_restart env s).1.current_generation_id =
      s.current_generation_id := by
  unfold check_pending_service_restart apply_rag_change restart_ramalama_service
  repeat' split <;> simp_all

/-- A complete uninterfered `SendMessageStreaming` call from the idle
initial state: the run returns to the initial state and its event log is
the delivered stream signals, then the conversation-store append of the
returned response, then the completion signal. -/
lemma run_generationRun (db envSuccess : Bool) (gid : Nat) (msg : String)
    (resp : HttpResponse) :
    run (init db) (generationRun envSuccess gid msg resp) =
      (init db,
        (generate_response_streaming true true resp).1.map (streamEvToSignal gid) ++
          [Ev.memoryAppend msg (generate_response_streaming true true resp).2,
            Ev.streamingComplete gid]) := by
  unfold generationRun
  simp only [run, step]
  rw [run_streamActs gid _ _ _ rfl rfl]
  simp [run, step, worker_finish, check_pending_service_restart, init]

/-- C8 (confirmed): malformed JSON payload lines are skipped without
aborting the stream (the decoder behaves as if the line were absent);
payloads whose reasoning/content fields are absent or null produce no
delta; and the concrete stream of one well-formed content chunk, one
malformed line and the terminal marker yields exactly one content delta
with no decoder failure. -/
theorem decoder_robustness :
    (∀ (hrc hcc : Bool) (str : String) (xs ys : List SSELine),
      processLines hrc hcc (xs ++ SSELine.dataMalformed str :: ys) =
        processLines hrc hcc (xs ++ ys)) ∧
    (∀ (hrc hcc : Bool) (rest : List SSELine),
      processLines hrc hcc (SSELine.dataDelta ⟨none, none⟩ :: rest) =
          processLines hrc hcc rest ∧
        processLines hrc hcc (SSELine.dataDelta ⟨some none, none⟩ :: rest) =
          processLines hrc hcc rest ∧
        processLines hrc hcc (SSELine.dataDelta ⟨none, some none⟩ :: rest) =
          processLines hrc hcc rest ∧
        processLines hrc hcc (SSELine.dataDelta ⟨some none, some none⟩ :: rest) =
          processLines hrc hcc rest) ∧
    (call_ramalama_api_streaming true true
        (HttpResponse.okStream
          [SSELine.dataDelta ⟨none, some (some "4")⟩, SSELine.dataMalformed "oops",
            SSELine.dataDone] StreamEnding.exhausted) =
      Except.ok ([StreamEvent.contentChunk "4"], "4")) := by
  refine ⟨fun hrc hcc str xs ys => processLines_skip_malformed hrc hcc str xs ys,
    fun hrc hcc rest => ⟨?_, ?_, ?_, ?_⟩, ?_⟩
  · simp [processLines]
  · simp [processLines]
  · simp [processLines]
  · simp [processLines]
  · simp [call_ramalama_api_streaming, processLines]

/-- C9 (confirmed): for a generation that runs the stream to completion
with no cancellation or supersession, the decoder's return value is the
in-order concatenation of the non-null content fragments (reasoning
fragments excluded), and the conversation store receives exactly one
append of the user message and that full content, positioned after the
delivered deltas and before the completion signal. -/
theorem natural_completion_events (db envSuccess : Bool) (gid : Nat)
    (msg : String) (lines : List SSELine) (ending : StreamEnding) :
    ((run (init db)
        (generationRun envSuccess gid msg (HttpResponse.okStream lines ending))).2 =
      (processLines true true lines).1.map (streamEvToSignal gid) ++
        [Ev.memoryAppend msg (processLines true true lines).2,
          Ev.streamingComplete gid]) ∧
    (processLines true true lines).2 =
      concatAll ((takeUntilDone lines).filterMap contentFragment) := by
  constructor
  · rw [run_generationRun]
    simp [generate_response_streaming, call_ramalama_api_streaming]
  · exact processLines_full true true lines

/-- C4 counterexample: a connection-refused transport error during a
streaming generation produces an event log with no `ResponseChunk` at all
(in particular no synthesized error delta before the completion signal),
refuting the claim that a ResponseChunk carrying an error message is
emitted. -/
theorem transport_error_counterexample :
    ((run (init false)
        (generationRun true 1 "hi" HttpResponse.connectionError)).2.filter
      isResponseChunkEv = []) ∧
    Ev.streamingComplete 1 ∈
      (run (init false) (generationRun true 1 "hi" HttpResponse.connectionError)).2 := by
  rw [run_generationRun]
  constructor
  · rfl
  · simp [generate_response_streaming, call_ramalama_api_streaming]

/-- C4 (corrected, amended): a transport error (connection refused or
timeout) is caught inside the LLM client and converted into the returned
string `I encountered an error: ...`; the worker then follows the normal
completion path — the error text is appended to the conversation store
and `StreamingComplete` fires — but no `ResponseChunk` carrying the error
is emitted to the UI. -/
theorem transport_error_amended (db envSuccess : Bool) (gid : Nat) (msg : String) :
    (generate_response_streaming true true HttpResponse.connectionError =
      ([], "I encountered an error: Cannot connect to Ramalama. Is it running? Check: systemctl --user status ramalama")) ∧
    (generate_response_streaming true true HttpResponse.timeout =
      ([], "I encountered an error: Sorry, the request timed out. Please try again.")) ∧
    ((run (init db) (generationRun envSuccess gid msg HttpResponse.connectionError)).2 =
      [Ev.memoryAppend msg "I encountered an error: Cannot connect to Ramalama. Is it running? Check: systemctl --user status ramalama",
        Ev.streamingComplete gid]) ∧
    ((run (init db) (generationRun envSuccess gid msg HttpResponse.timeout)).2 =
      [Ev.memoryAppend msg "I encountered an error: Sorry, the request timed out. Please try again.",
        Ev.streamingComplete gid]) := by
  refine ⟨rfl, rfl, ?_, ?_⟩
  · rw [run_generationRun]
    rfl
  · rw [run_generationRun]
    rfl

/-- C5 (confirmed): after `StopGeneration` sets the stop flag, the chunk
handler delivers no further content deltas; the worker's completion path
still runs — it clears the registry's current id and the completion
signal is the first event it emits; and when the stop closes the
connection mid-stream (`ChunkedEncodingError`) the decoder returns the
partial accumulated output as a valid result rather than raising. -/
theorem cancellation_behavior :
    (∀ s : DaemonState, (step s Act.stopGen).1.stop_generation = true) ∧
    (∀ (s : DaemonState) (gid : Nat) (c : String),
      chunk_handler gid c { s with stop_generation := true } = []) ∧
    (∀ (envSuccess : Bool) (gid : Nat) (m f : String) (s : DaemonState),
      (worker_finish envSuccess gid m f
          { s with stop_generation := true }).1.current_generation_id = none ∧
        (worker_finish envSuccess gid m f { s with stop_generation := true }).2.head? =
          some (Ev.streamingComplete gid)) ∧
    (∀ (hrc hcc : Bool) (lines : List SSELine),
      call_ramalama_api_streaming hrc hcc
          (HttpResponse.okStream lines StreamEnding.chunkedEncodingError) =
        Except.ok (processLines hrc hcc lines)) := by
  refine ⟨fun s => rfl, fun s gid c => by simp [chunk_handler],
    fun envSuccess gid m f s => ⟨?_, ?_⟩, fun hrc hcc lines => rfl⟩
  · unfold worker_finish
    rw [if_pos (Or.inl rfl)]
    simpa using check_pending_preserves_current envSuccess
      { s with stop_generation := true, current_generation_id := none, status := "ready" }
  · unfold worker_finish
    rw [if_pos (Or.inl rfl)]
    rfl

/-- C1 counterexample: start generation 1, then generation 2 (so the
registry holds 2), then let generation 1's worker complete: the stale
worker's completion path sets the current generation id to `none`,
clobbering generation 2's registration — refuting the claim that a
superseded worker never mutates the registry after a newer generation is
registered. -/
theorem stale_worker_clobbers_registry :
    ((run (init false) [Act.startGen 1, Act.workerBegin 1, Act.startGen 2,
        Act.workerBegin 2]).1.current_generation_id = some 2) ∧
    ((run (init false) [Act.startGen 1, Act.workerBegin 1, Act.startGen 2,
        Act.workerBegin 2,
        Act.workerFinish true 1 "msg" "resp"]).1.current_generation_id = none) := by
  constructor
  · rfl
  · rfl

/-- C1 (corrected, amended): after each `startGeneration` call the
registry's current id equals the most recently started id, and stale
delta delivery never mutates the state; however a superseded (or stopped)
worker's completion path unconditionally sets the current id to `none`,
overwriting whatever newer generation had registered, instead of leaving
a non-matching id untouched. -/
theorem registry_current_id_amended :
    (∀ (s : DaemonState) (gid : Nat),
      (step s (Act.startGen gid)).1.current_generation_id = some gid) ∧
    (∀ (s : DaemonState) (gid : Nat) (c : String),
      (step s (Act.deliverContent gid c)).1 = s ∧
        (step s (Act.deliverReasoning gid c)).1 = s) ∧
    (∀ (envSuccess : Bool) (gid : Nat) (m f : String) (s : DaemonState),
      s.current_generation_id ≠ some gid →
        (worker_finish envSuccess gid m f s).1.current_generation_id = none) := by
  refine ⟨fun s gid => rfl, fun s gid c => ⟨rfl, rfl⟩,
    fun envSuccess gid m f s h => ?_⟩
  unfold worker_finish
  rw [if_pos (Or.inr h)]
  simpa using check_pending_preserves_current envSuccess
    { s with current_generation_id := none, status := "ready" }

/-- Witness for the amended C1 theorem at concrete inputs. -/
theorem registry_current_id_amended_witness :
    ((step (init false) (Act.startGen 5)).1.current_generation_id = some 5) ∧
    ((init false).current_generation_id ≠ some 7) ∧
    ((worker_finish true 7 "m" "f" (init false)).1.current_generation_id = none) :=
  ⟨registry_current_id_amended.1 (init false) 5, by decide,
    registry_current_id_amended.2.2 true 7 "m" "f" (init false) (by decide)⟩

/-- C10 (confirmed): a `SetRagEnabled(true, mode)` call when no RAG
database exists returns a failure result and leaves the state completely
unchanged — no restart invocation, no debounce timer, no pending deferred
change — for every state, including states with an active generation,
because the database check precedes the active-generation deferral
check. -/
theorem no_rag_db_rejected (envSuccess : Bool) (m : String) (s : DaemonState) :
    ((SetRagEnabled envSuccess true m { s with has_rag_db := false }).1 =
      { s with has_rag_db := false }) ∧
    ((SetRagEnabled envSuccess true m { s with has_rag_db := false }).2.1 = []) ∧
    ((SetRagEnabled envSuccess true m { s with has_rag_db := false }).2.2.success =
      false) := by
  cases hs : s.service_restarting <;> simp [SetRagEnabled, hs]

/-- C6 counterexample: an apply with a failing backend restart still
changes the cached mode — from the initial `augment` to the requested
`strict` — refuting the claim that on failure both cached values are
unchanged. -/
theorem failed_restart_mode_cache_counterexample :
    ((init true).rag_mode = "augment") ∧
    ((apply_rag_change false true "strict" (init true)).1.rag_mode = "strict") ∧
    ((apply_rag_change false true "strict" (init true)).2.2.success = false) := by
  refine ⟨rfl, rfl, rfl⟩

/-- C6 (corrected, amended): the cached enabled flag is updated only when
the backend restart succeeds (on failure it is unchanged), but the cached
mode is written unconditionally before the restart attempt, so it changes
even on failure; and the RestartGate is released on every exit path — the
busy path never takes it, and both the success and the failure path of a
completed apply leave it clear. -/
theorem apply_rag_change_amended :
    (∀ (envSuccess e : Bool) (m : String) (s : DaemonState),
      apply_rag_change envSuccess e m { s with service_restarting := true } =
        ({ s with service_restarting := true }, [],
          ⟨false, "Service restart already in progress"⟩)) ∧
    (∀ (envSuccess e : Bool) (m : String) (s : DaemonState),
      ((apply_rag_change envSuccess e m
          { s with service_restarting := false }).1.service_restarting = false) ∧
        ((apply_rag_change envSuccess e m
            { s with service_restarting := false }).1.rag_mode = m) ∧
        ((apply_rag_change envSuccess e m
            { s with service_restarting := false }).1.llm_rag_enabled =
          if (apply_rag_change envSuccess e m
              { s with service_restarting := false }).2.2.success = true
            then e else s.llm_rag_enabled)) := by
  constructor
  · intro envSuccess e m s
    simp [apply_rag_change]
  · intro envSuccess e m s
    refine ⟨?_, ?_, ?_⟩ <;>
      simp [apply_rag_change, restart_ramalama_service] <;> split <;> simp_all

/-- C7 (confirmed): an apply attempted while the RestartGate is held
returns a busy result without invoking the backend restart and without
touching the state; and in the interleaved two-invocation model of
`_apply_rag_change`, no reachable configuration has both invocations in
the restart critical section — one proceeds, the other observes the gate
and returns busy. -/
theorem restart_gate_mutual_exclusion :
    (∀ (envSuccess e : Bool) (m : String) (s : DaemonState),
      apply_rag_change envSuccess e m { s with service_restarting := true } =
        ({ s with service_restarting := true }, [],
          ⟨false, "Service restart already in progress"⟩)) ∧
    (∀ c : GateConf, Relation.ReflTransGen gateStep gateInit c →
      ¬(c.pc1 = GatePC.crit ∧ c.pc2 = GatePC.crit)) := by
  constructor
  · intro envSuccess e m s
    simp [apply_rag_change]
  · intro c hreach
    exact (gateInv_reachable hreach).2.2

/-- Witness for the C7 theorem at concrete inputs: the busy clause at the
initial state with the gate held, and the mutual-exclusion clause at the
initial configuration (reachable by the empty step sequence). -/
theorem restart_gate_mutual_exclusion_witness :
    (apply_rag_change true true "strict" { init true with service_restarting := true } =
      ({ init true with service_restarting := true }, [],
        ⟨false, "Service restart already in progress"⟩)) ∧
    ¬(gateInit.pc1 = GatePC.crit ∧ gateInit.pc2 = GatePC.crit) :=
  ⟨restart_gate_mutual_exclusion.1 true true "strict" (init true),
    restart_gate_mutual_exclusion.2 gateInit Relation.ReflTransGen.refl⟩

/-- A non-busy apply emits exactly one restart invocation, carrying the
requested enabled flag and the requested mode (written into `_rag_mode`
just before the restart). -/
lemma apply_rag_change_events (envSuccess e : Bool) (m : String) (s : DaemonState)
    (h : s.service_restarting = false) :
    (apply_rag_change envSuccess e m s).2.1 = [Ev.restartInvoked e m] := by
  unfold apply_rag_change restart_ramalama_service
  repeat' split <;> simp_all

/-- An apply never touches the pending-reconfiguration slot. -/
lemma apply_rag_change_pending (envSuccess e : Bool) (m : String) (s : DaemonState) :
    (apply_rag_change envSuccess e m s).1.pending_rag_change =
      s.pending_rag_change := by
  unfold apply_rag_change restart_ramalama_service
  repeat' split <;> simp_all

/-- Full trace of claim C2's scenario: a generation starts, a nonempty
burst of `SetRagEnabled` calls arrives while it is active (all deferred,
last-write-wins), and then the generation's worker finishes.  The run
produces the append, the completion signal, and then exactly the events
of one apply of the last request, executed on the post-completion idle
state. -/
lemma run_defer_then_finish (envF : Bool) (gid : Nat) (msg full : String)
    (env0 e0 : Bool) (m0 : String) (tail : List (Bool × Bool × String)) :
    run (init true)
        (Act.startGen gid :: Act.workerBegin gid ::
          ((Act.setRag env0 e0 m0 ::
              tail.map (fun q => Act.setRag q.1 q.2.1 q.2.2)) ++
            [Act.workerFinish envF gid msg full])) =
      ((apply_rag_change envF (lastTriple (e0, m0) tail).1
          (validateMode (lastTriple (e0, m0) tail).2) (init true)).1,
        [Ev.memoryAppend msg full, Ev.streamingComplete gid] ++
          (apply_rag_change envF (lastTriple (e0, m0) tail).1
            (validateMode (lastTriple (e0, m0) tail).2) (init true)).2.1) := by
  have hdef := run_deferral tail
    ({ status := "thinking", stop_generation := false,
       current_generation_id := some gid, pending_service_restart := false,
       rag_mode := "augment", service_restarting := false,
       pending_rag_change := none, rag_mode_change_timer := none,
       llm_rag_enabled := false, has_rag_db := true }) gid rfl rfl rfl env0 e0 m0
  have hL : run (init true) [Act.startGen gid, Act.workerBegin gid] =
      ({ status := "thinking", stop_generation := false,
         current_generation_id := some gid, pending_service_restart := false,
         rag_mode := "augment", service_restarting := false,
         pending_rag_change := none, rag_mode_change_timer := none,
         llm_rag_enabled := false, has_rag_db := true }, []) := rfl
  show run (init true)
      ([Act.startGen gid, Act.workerBegin gid] ++
        ((Act.setRag env0 e0 m0 ::
            tail.map (fun q => Act.setRag q.1 q.2.1 q.2.2)) ++
          [Act.workerFinish envF gid msg full])) = _
  rw [run_append, hL]
  rw [run_append]
  simp only
  rw [hdef]
  simp only [run, step]
  unfold worker_finish
  rw [if_neg (by simp)]
  simp [check_pending_service_restart, init]

/-- C2 (confirmed): for a nonempty burst of `SetRagEnabled` requests
received while a generation is active, after that generation's worker
completes the coordinator invokes the backend restart exactly once, with
the enabled flag and validated mode of the last request, and the pending
slot ends cleared; moreover the deferred-check hook clears the pending
slot before calling the apply step (the apply runs on a state whose
pending slot is already `none`). -/
theorem deferred_reconfiguration_exactly_once (envF : Bool) (gid : Nat)
    (msg full : String) (env0 e0 : Bool) (m0 : String)
    (tail : List (Bool × Bool × String)) :
    (restartEvents ((run (init true)
        (Act.startGen gid :: Act.workerBegin gid ::
          ((Act.setRag env0 e0 m0 ::
              tail.map (fun q => Act.setRag q.1 q.2.1 q.2.2)) ++
            [Act.workerFinish envF gid msg full]))).2) =
      [Ev.restartInvoked (lastTriple (e0, m0) tail).1
        (validateMode (lastTriple (e0, m0) tail).2)]) ∧
    ((run (init true)
        (Act.startGen gid :: Act.workerBegin gid ::
          ((Act.setRag env0 e0 m0 ::
              tail.map (fun q => Act.setRag q.1 q.2.1 q.2.2)) ++
            [Act.workerFinish envF gid msg full]))).1.pending_rag_change = none) ∧
    (∀ (envSuccess e : Bool) (m : String) (s : DaemonState),
      check_pending_service_restart envSuccess
          { s with current_generation_id := none,
                   pending_rag_change := some ⟨e, m⟩ } =
        ((apply_rag_change envSuccess e m
            { s with current_generation_id := none,
                     pending_rag_change := none }).1,
          (apply_rag_change envSuccess e m
            { s with current_generation_id := none,
                     pending_rag_change := none }).2.1)) := by
  refine ⟨?_, ?_, ?_⟩
  · rw [run_defer_then_finish]
    rw [apply_rag_change_events _ _ _ _ rfl]
    rfl
  · rw [run_defer_then_finish]
    rw [apply_rag_change_pending]
    rfl
  · intro envSuccess e m s
    simp [check_pending_service_restart]

/-- C3 counterexample: two `SetRagEnabled` calls while idle with the gate
free (the claimed debounce-window scenario) each apply immediately — the
run performs two restart invocations, the first with the first call's
parameters, refuting the claim that exactly one restart occurs with the
second call's parameters. -/
theorem idle_two_calls_counterexample :
    restartEvents ((run (init true) [Act.setRag true true "strict",
        Act.setRag true true "hybrid"]).2) =
      [Ev.restartInvoked true "strict", Ev.restartInvoked true "hybrid"] := by
  rfl

/-- C3 (corrected, amended): while idle with the RestartGate free, each
`SetRagEnabled` call applies immediately, so two sequential calls perform
two restarts, each with its own call's (validated) parameters; and a
request arriving while the gate is held is answered with a busy failure
result — no debounce timer is started and nothing is scheduled.  (The
source's debounce-timer branch re-reads the same flag its priority-1
busy check already required to be false, so it is unreachable in a
sequential execution.) -/
theorem idle_reconfiguration_amended :
    (∀ (env1 env2 e1 e2 : Bool) (m1 m2 : String),
      restartEvents ((run (init true) [Act.setRag env1 e1 m1,
          Act.setRag env2 e2 m2]).2) =
        [Ev.restartInvoked e1 (validateMode m1),
          Ev.restartInvoked e2 (validateMode m2)]) ∧
    (∀ (envSuccess e : Bool) (m : String) (s : DaemonState),
      SetRagEnabled envSuccess e m { s with service_restarting := true } =
        ({ s with service_restarting := true }, [],
          ⟨false, "Service restart already in progress, please wait"⟩)) := by
  constructor
  · intro env1 env2 e1 e2 m1 m2
    cases env1 <;> cases env2 <;>
      simp [run, step, SetRagEnabled, apply_rag_change,
        restart_ramalama_service, restartEvents, isRestartEv, init]
  · intro envSuccess e m s
    simp [SetRagEnabled]

end Henzai
